import Mathlib

/-!
Verification of the MCA (maximum-covariance analysis) pipeline in
`ml4tc/scripts/run_mca_for_shapley_maps.py`.

The script reads a P-by-P covariance matrix (from a NetCDF file or a zarr
store, migrating the former to the latter on first contact), aggregates
Shapley/predictor fields from saliency files, standardizes them, runs a
PCA-based maximum-covariance analysis, and writes seven result arrays to a
zarr store.

Real-valued numpy arrays are embedded as functions over `Fin` index types
into `ℝ`; the filesystem touched by the covariance loader is embedded as an
explicit record of file and directory contents, with reads and writes
modelled as state transitions.
-/

open Matrix
open scoped BigOperators

namespace Ml4tc

/-! ### Coarsening-factor inference (lines 257-272 of `run_mca_for_shapley_maps.py`)

`spatial_coarsening_factor_float = sqrt(float(num_orig_pixels) / num_covariance_pixels)`,
`spatial_coarsening_factor = int(numpy.round(...))`, then
`assert numpy.isclose(factor, factor_float, rtol=0.01)` where
`numpy.isclose(a, b, rtol)` means `|a - b| <= atol + rtol * |b|` with the
default `atol = 1e-8`.  (`numpy.round` rounds halves to even; none of the
values considered here is an exact half, where it agrees with `round`.) -/

/-- The float coarsening factor `sqrt(num_orig_pixels / num_covariance_pixels)`. -/
noncomputable def spatialCoarseningFactorFloat
    (numOrigPixels numCovariancePixels : ℕ) : ℝ :=
  Real.sqrt ((numOrigPixels : ℝ) / (numCovariancePixels : ℝ))

/-- The integer coarsening factor: the float factor rounded to the nearest
integer. -/
noncomputable def spatialCoarseningFactor
    (numOrigPixels numCovariancePixels : ℕ) : ℤ :=
  round (spatialCoarseningFactorFloat numOrigPixels numCovariancePixels)

/-- The `assert numpy.isclose(factor, factor_float, rtol=0.01)` consistency
check: `|a - b| <= atol + rtol * |b|` with `atol = 1e-8`, `rtol = 0.01`,
`a` the rounded factor and `b` the float factor.  The run aborts iff this
fails. -/
def coarseningCheckPasses (numOrigPixels numCovariancePixels : ℕ) : Prop :=
  |(spatialCoarseningFactor numOrigPixels numCovariancePixels : ℝ) -
      spatialCoarseningFactorFloat numOrigPixels numCovariancePixels| ≤
    1e-8 + 0.01 * |spatialCoarseningFactorFloat numOrigPixels numCovariancePixels|

/-! ### Predictor field: element-wise division with non-finite masking
(lines 281-286)

`numpy.divide` on real operands produces a non-finite value exactly when the
denominator is zero (`inf`, `-inf` or `nan` according to the numerator's
sign); the script then sets every non-finite entry to `0`.  IEEE division is
embedded by an inductive of a finite real value and the three non-finite
outcomes. -/

/-- Result of an IEEE-style division: a finite real or one of the three
non-finite values. -/
inductive NpFloat where
  | val : ℝ → NpFloat
  | posInf : NpFloat
  | negInf : NpFloat
  | nan : NpFloat

/-- `numpy.divide` on finite real operands: finite quotient when the divisor
is nonzero; `nan` for `0/0`; signed infinity otherwise. -/
noncomputable def npDivide (a b : ℝ) : NpFloat :=
  if b ≠ 0 then .val (a / b)
  else if a = 0 then .nan
  else if 0 < a then .posInf
  else .negInf

/-- The masking step `m[~isfinite(m)] = 0`: keep finite values, replace
non-finite values with `0`. -/
def maskNonFinite (x : NpFloat) : ℝ :=
  match x with
  | .val r => r
  | _ => 0

/-- One entry of the predictor matrix: gradient divided by saliency, with
non-finite results masked to zero. -/
noncomputable def predictorEntry (grad sal : ℝ) : ℝ :=
  maskNonFinite (npDivide grad sal)

/-- The predictor matrix built from a coarsened gradient field and a
coarsened saliency field (`numpy.divide` then non-finite masking),
element-wise over the example/row/column grid. -/
noncomputable def predictorMatrix {E R C : ℕ}
    (gradField salField : Fin E → Fin R → Fin C → ℝ) :
    Fin E → Fin R → Fin C → ℝ :=
  fun e r c => predictorEntry (gradField e r c) (salField e r c)

/-! ### The covariance loader (`_read_covariance_matrix`, lines 70-116)

The loader works on a filesystem holding regular files (NetCDF, probed with
`os.path.isfile`) and directories (zarr stores, probed with `os.path.isdir`),
each mapping a path to the covariance matrix it stores.  The matrix contents
are opaque to the loader, so they are embedded as an arbitrary type `α`.
Python string operations are embedded over Lean strings:
`s.endswith(suffix)` as a suffix test on the character list, and the slices
`s[:-3]`, `s[:-5]` as `String.dropRight`. -/

/-- Python `str.endswith`: the suffix's characters are a suffix of the
string's characters. -/
def pyEndsWith (s suffix : String) : Bool :=
  suffix.data.isSuffixOf s.data

/-- A filesystem: regular files (the legacy NetCDF representation) and
directories (zarr stores), each as a partial map from paths to stored
covariance matrices of type `α`. -/
structure FileSys (α : Type) where
  files : String → Option α
  dirs : String → Option α

/-- Errors the loader can raise: a read error when `xarray` is pointed at a
path with no representation on disk, and a write error when writing the
migrated zarr store fails. -/
inductive CovReadError where
  | readError : CovReadError
  | writeError : CovReadError
deriving DecidableEq

/-- Modelled from the spec: `get_shap_predictor_covariance_matrix._write_results`
(a repository script not included here) writes the covariance matrix as a
zarr store at the given path, overwriting whatever store was there. -/
def writeZarrStore {α : Type} (fs : FileSys α) (name : String) (m : α) :
    FileSys α :=
  { fs with dirs := fun s => if s = name then some m else fs.dirs s }

/-- `os.remove`: delete the regular file at the given path. -/
def removeFile {α : Type} (fs : FileSys α) (name : String) : FileSys α :=
  { fs with files := fun s => if s = name then none else fs.files s }

/-- The extension-swap probing (lines 82-92): if the path ends in `.nc` but
no such file exists, swap to the `.zarr` path; if the (possibly swapped) path
ends in `.zarr` but no such directory exists, swap to the `.nc` path. -/
def resolveCovariancePath {α : Type} (fs : FileSys α) (name : String) :
    String :=
  let name1 :=
    if pyEndsWith name ".nc" && (fs.files name).isNone
    then name.dropRight 3 ++ ".zarr"
    else name
  if pyEndsWith name1 ".zarr" && (fs.dirs name1).isNone
  then name1.dropRight 5 ++ ".nc"
  else name1

/-- The loader `_read_covariance_matrix` (lines 70-116).  After the
extension-swap probing: a `.zarr` path is read as a zarr store; a path ending
in neither extension returns `None` (line 100); a `.nc` path is read as a
NetCDF file and migrated (write the zarr store, then delete the NetCDF file).
`writeSucceeds` says whether the migration write succeeds; when it fails the
exception propagates before `os.remove` runs, leaving the filesystem as it
was.  The result pairs the returned value (or the error raised) with the
filesystem after the call. -/
def readCovarianceMatrix {α : Type} (fs : FileSys α) (name : String)
    (writeSucceeds : Bool) : Except CovReadError (Option α) × FileSys α :=
  let resolved := resolveCovariancePath fs name
  if pyEndsWith resolved ".zarr" then
    match fs.dirs resolved with
    | some m => (Except.ok (some m), fs)
    | none => (Except.error CovReadError.readError, fs)
  else if !(pyEndsWith resolved ".nc") then
    (Except.ok none, fs)
  else
    match fs.files resolved with
    | none => (Except.error CovReadError.readError, fs)
    | some m =>
      if writeSucceeds then
        let fs1 := writeZarrStore fs (resolved.dropRight 3 ++ ".zarr") m
        let fs2 := removeFile fs1 resolved
        (Except.ok (some m), fs2)
      else
        (Except.error CovReadError.writeError, fs)

/-- The successive filesystem states of the migration hack (lines 106-116),
in execution order: before the migration, after writing the zarr store
(line 110), and after deleting the NetCDF file (line 114). -/
def migrationTrace {α : Type} (fs : FileSys α) (name : String) (m : α) :
    List (FileSys α) :=
  [fs,
   writeZarrStore fs (name.dropRight 3 ++ ".zarr") m,
   removeFile (writeZarrStore fs (name.dropRight 3 ++ ".zarr") m) name]

/-- A filesystem holding only the legacy NetCDF representation at
`cov.nc`. -/
def legacyFS {α : Type} (m : α) : FileSys α :=
  { files := fun s => if s = "cov.nc" then some m else none,
    dirs := fun _ => none }

/-- The empty filesystem: no files, no directories. -/
def emptyFS : FileSys Unit :=
  { files := fun _ => none, dirs := fun _ => none }

/-! ### The result writer (`_write_mca_results`, lines 119-223)

The writer builds an `xarray.Dataset` from seven named arrays keyed by four
named axes and writes it to a zarr store with an explicit `float32` encoding
for every variable.  What the claims are about is the set of variables, their
axis labels and their stored dtype, so the store is embedded as the list of
variables the dataset holds, each with its key, its axis labels, and the
dtype it is encoded at on disk. -/

def PRINCIPAL_COMPONENT_DIM : String := "principal_component"
def GRID_ROW_DIM : String := "grid_row"
def GRID_COLUMN_DIM : String := "grid_column"
def PIXEL_DIM : String := "pixel"

def SHAPLEY_SINGULAR_VALUE_KEY : String := "shapley_singular_value"
def PREDICTOR_SINGULAR_VALUE_KEY : String := "predictor_singular_value"
def SHAPLEY_EXPANSION_COEFF_KEY : String := "shapley_expansion_coefficient"
def PREDICTOR_EXPANSION_COEFF_KEY : String := "predictor_expansion_coefficient"
def EIGENVALUE_KEY : String := "eigenvalue"
def REGRESSED_SHAPLEY_VALUE_KEY : String := "regressed_shapley_value"
def REGRESSED_PREDICTOR_KEY : String := "regressed_predictor"

/-- One variable of the output zarr store: its key, its list of named axes,
and the floating dtype it is stored at on disk. -/
structure ZarrVariable where
  key : String
  dims : List String
  storedDtype : String
deriving DecidableEq

/-- The `main_data_dict` of `_write_mca_results` (lines 177-206): the seven
variable keys with their axis labels, in construction order. -/
def mainDataDict : List (String × List String) :=
  [(SHAPLEY_SINGULAR_VALUE_KEY, [PIXEL_DIM, PRINCIPAL_COMPONENT_DIM]),
   (PREDICTOR_SINGULAR_VALUE_KEY, [PIXEL_DIM, PRINCIPAL_COMPONENT_DIM]),
   (SHAPLEY_EXPANSION_COEFF_KEY,
    [PRINCIPAL_COMPONENT_DIM, PRINCIPAL_COMPONENT_DIM]),
   (PREDICTOR_EXPANSION_COEFF_KEY,
    [PRINCIPAL_COMPONENT_DIM, PRINCIPAL_COMPONENT_DIM]),
   (EIGENVALUE_KEY, [PRINCIPAL_COMPONENT_DIM]),
   (REGRESSED_SHAPLEY_VALUE_KEY,
    [PRINCIPAL_COMPONENT_DIM, GRID_ROW_DIM, GRID_COLUMN_DIM]),
   (REGRESSED_PREDICTOR_KEY,
    [PRINCIPAL_COMPONENT_DIM, GRID_ROW_DIM, GRID_COLUMN_DIM])]

/-- The `encoding_dict` of `_write_mca_results` (lines 212-220): every
variable is encoded at `float32`. -/
def encodingDict : List (String × String) :=
  [(SHAPLEY_SINGULAR_VALUE_KEY, "float32"),
   (PREDICTOR_SINGULAR_VALUE_KEY, "float32"),
   (SHAPLEY_EXPANSION_COEFF_KEY, "float32"),
   (PREDICTOR_EXPANSION_COEFF_KEY, "float32"),
   (EIGENVALUE_KEY, "float32"),
   (REGRESSED_SHAPLEY_VALUE_KEY, "float32"),
   (REGRESSED_PREDICTOR_KEY, "float32")]

/-- The store written by `_write_mca_results`: one variable per entry of
`main_data_dict`, stored at the dtype the encoding dictionary gives it, or at
the input arrays' own dtype when the encoding has no entry for the key (the
`xarray.Dataset.to_zarr` default). -/
def writeMcaResults (inputDtype : String) : List ZarrVariable :=
  mainDataDict.map fun kv =>
    { key := kv.1, dims := kv.2,
      storedDtype := (encodingDict.lookup kv.1).getD inputDtype }

/-! ### Global standardization (lines 303-315)

`numpy.mean(m)` and `numpy.std(m, ddof=1)` reduce over every element of the
array whatever its shape, so they are embedded over an arbitrary finite index
type `ι`: the E-by-R-by-C arrays of the script instantiate
`ι := Fin E × Fin R × Fin C` and the flattened E-by-P matrices
`ι := Fin E × Fin P`. -/

/-- Mean over all entries of the array (`numpy.mean` with no axis). -/
noncomputable def npMean {ι : Type*} [Fintype ι] (x : ι → ℝ) : ℝ :=
  (∑ i, x i) / (Fintype.card ι : ℝ)

/-- Sample variance over all entries: squared deviations from the global
mean, divided by `N - 1` (the `ddof=1` convention). -/
noncomputable def npSampleVariance {ι : Type*} [Fintype ι] (x : ι → ℝ) : ℝ :=
  (∑ i, (x i - npMean x) ^ 2) / ((Fintype.card ι : ℝ) - 1)

/-- Sample standard deviation: `numpy.std(m, ddof=1)`. -/
noncomputable def npSampleStdev {ι : Type*} [Fintype ι] (x : ι → ℝ) : ℝ :=
  Real.sqrt (npSampleVariance x)

/-- Global standardization (lines 303-315): subtract the single global mean
and divide by the single global sample standard deviation, the same pair of
scalars at every entry. -/
noncomputable def standardizeGlobal {ι : Type*} [Fintype ι] (x : ι → ℝ) :
    ι → ℝ :=
  fun i => (x i - npMean x) / npSampleStdev x

/-! ### Pixel indexing and reshaping (lines 317-326 and 399-406)

`numpy.reshape` keeps C (row-major) order: pixel `p` of a flattened R-by-C
grid is row `p / C`, column `p % C`, and conversely the pixel index of
`(r, c)` is `r * C + c`. -/

/-- Row-major pixel index of grid position `(r, c)` in an R-by-C grid. -/
def pixelIndex {R C : ℕ} (r : Fin R) (c : Fin C) : Fin (R * C) :=
  ⟨r.val * C + c.val, by
    calc r.val * C + c.val < r.val * C + C := Nat.add_lt_add_left c.isLt _
      _ = (r.val + 1) * C := (Nat.succ_mul _ _).symm
      _ ≤ R * C := Nat.mul_le_mul_right C (Nat.succ_le_of_lt r.isLt)⟩

/-- Reshape a K-by-P array back to a K-by-R-by-C grid (lines 399-406),
row-major. -/
def reshapeToGrid {K R C : ℕ} (x : Fin K → Fin (R * C) → ℝ) :
    Fin K → Fin R → Fin C → ℝ :=
  fun k r c => x k (pixelIndex r c)

/-! ### PCA and the singular-vector matrices (lines 328-340) -/

/-- The number of components requested from the PCA:
`n_components=num_examples` (line 329). -/
def nComponents (numExamples : ℕ) : ℕ := numExamples

/-- Modelled from the spec: `sklearn.decomposition.IncrementalPCA` (an
external library, absent from the repository) fitted on the P-by-P covariance
matrix with `numComponents` requested components; per the spec it yields a
components matrix with one row per retained mode over the P features, and one
singular value per retained mode. -/
structure PCAResult (numComponents P : ℕ) where
  components : Matrix (Fin numComponents) (Fin P) ℝ
  singularValues : Fin numComponents → ℝ

/-- The predictor singular-vector matrix: the transposed PCA components
matrix (line 332). -/
def predictorSingularValueMatrix {K P : ℕ} (pca : PCAResult K P) :
    Matrix (Fin P) (Fin K) ℝ :=
  pca.componentsᵀ

/-- The eigenvalues: squared PCA singular values (line 333). -/
noncomputable def eigenvaluesOfPCA {K P : ℕ} (pca : PCAResult K P) :
    Fin K → ℝ :=
  fun i => pca.singularValues i ^ 2

/-- The matrix `numpy.dot(covariance_matrix, predictor_singular_value_matrix)`
(lines 336-338). -/
noncomputable def firstMatrix {P K : ℕ} (covariance : Matrix (Fin P) (Fin P) ℝ)
    (predictorSVM : Matrix (Fin P) (Fin K) ℝ) : Matrix (Fin P) (Fin K) ℝ :=
  covariance * predictorSVM

/-- The diagonal matrix `numpy.diag(numpy.sqrt(eigenvalues))`. -/
noncomputable def eigSqrtDiagonal {K : ℕ} (eigenvalues : Fin K → ℝ) :
    Matrix (Fin K) (Fin K) ℝ :=
  Matrix.diagonal fun i => Real.sqrt (eigenvalues i)

/-- The matrix `numpy.linalg.inv(numpy.diag(numpy.sqrt(eigenvalues)))`
(line 339). -/
noncomputable def secondMatrix {K : ℕ} (eigenvalues : Fin K → ℝ) :
    Matrix (Fin K) (Fin K) ℝ :=
  (eigSqrtDiagonal eigenvalues)⁻¹

/-- The Shapley singular-vector matrix (line 340): covariance times predictor
singular vectors, right-multiplied by the inverse of the diagonal matrix of
square-rooted eigenvalues. -/
noncomputable def shapleySingularValueMatrix {P K : ℕ}
    (covariance : Matrix (Fin P) (Fin P) ℝ)
    (predictorSVM : Matrix (Fin P) (Fin K) ℝ) (eigenvalues : Fin K → ℝ) :
    Matrix (Fin P) (Fin K) ℝ :=
  firstMatrix covariance predictorSVM * secondMatrix eigenvalues

/-- The number of columns of a matrix indexed by `Fin` types. -/
def matCols {m n : ℕ} (_ : Matrix (Fin m) (Fin n) ℝ) : ℕ := n

/-! ### Per-mode regression (lines 373-406)

For every mode `i` the script multiplies the transposed standardized field
matrix (E-by-P, either field) by the single-column slice
`coeff_matrix[:, [i]]` of the standardized expansion-coefficient matrix
(E-by-E, since K = E), squeezes the P-by-1 product and divides by the number
of examples; the K rows so produced are finally reshaped to K-by-R-by-C.
The same loop is run twice, once with the Shapley field (lines 376-383) and
once with the predictor field (lines 390-397). -/

/-- The single-column E-by-1 slice `coeff_matrix[:, [k]]`. -/
def coefficientColumn {E : ℕ} (coeffMatrix : Matrix (Fin E) (Fin E) ℝ)
    (k : Fin E) : Matrix (Fin E) (Fin 1) ℝ :=
  Matrix.of fun e _ => coeffMatrix e k

/-- Row `k` of the regressed matrix before reshaping:
`numpy.squeeze(numpy.dot(field_matrix.T, coeff_matrix[:, [k]])) / num_examples`. -/
noncomputable def regressedMatrixFlat {E RC : ℕ}
    (fieldMatrix : Matrix (Fin E) (Fin RC) ℝ)
    (coeffMatrix : Matrix (Fin E) (Fin E) ℝ) : Fin E → Fin RC → ℝ :=
  fun k p => (fieldMatrixᵀ * coefficientColumn coeffMatrix k) p 0 / (E : ℝ)

/-- The regressed maps of one field: the per-mode regression rows reshaped to
a K-by-R-by-C grid (K = E). -/
noncomputable def regressedMatrix {E R C : ℕ}
    (fieldMatrix : Matrix (Fin E) (Fin (R * C)) ℝ)
    (coeffMatrix : Matrix (Fin E) (Fin E) ℝ) : Fin E → Fin R → Fin C → ℝ :=
  reshapeToGrid (regressedMatrixFlat fieldMatrix coeffMatrix)

/-- A concrete 2-by-1 array used to instantiate the standardization theorem:
entries 0 and 2, with global mean 1 and sample variance 2. -/
def standardizeExample : Fin 2 × Fin 1 → ℝ :=
  fun i => if i.1.val = 0 then 0 else 2

/-- A concrete one-example, one-pixel PCA result used to instantiate the
mode-count theorem. -/
noncomputable def pcaExample : PCAResult (nComponents 1) 1 :=
  { components := 0, singularValues := fun _ => 1 }

end Ml4tc


namespace Ml4tc

/-! ## Theorems -/

/-- C2: counterexample.  On the path `cov.txt`, which ends in neither
recognized extension (so the extension-swap probing leaves it unchanged), the
loader returns `None` with no error raised and the filesystem untouched —
it does not signal a format error. -/
theorem c2_format_error_counterexample :
    readCovarianceMatrix emptyFS "cov.txt" true = (Except.ok none, emptyFS) := by
  simp [readCovarianceMatrix, resolveCovariancePath, emptyFS,
    show pyEndsWith "cov.txt" ".nc" = false from by decide,
    show pyEndsWith "cov.txt" ".zarr" = false from by decide]

/-- C2 (amended): for every covariance-matrix path that, after the
extension-swap probing in both directions, ends in neither recognized
extension, the loader returns the null result `None` (line 100) without
raising an error and without touching the filesystem; no format error is
signalled. -/
theorem c2_unrecognized_extension_returns_none {α : Type} (fs : FileSys α)
    (name : String) (writeSucceeds : Bool)
    (hz : pyEndsWith (resolveCovariancePath fs name) ".zarr" = false)
    (hn : pyEndsWith (resolveCovariancePath fs name) ".nc" = false) :
    readCovarianceMatrix fs name writeSucceeds = (Except.ok none, fs) := by
  simp [readCovarianceMatrix, hz, hn]

/-- C2 (amended), witnessed at the empty filesystem and the path
`cov.txt`. -/
theorem c2_unrecognized_extension_witness :
    (pyEndsWith (resolveCovariancePath emptyFS "cov.txt") ".zarr" = false
      ∧ pyEndsWith (resolveCovariancePath emptyFS "cov.txt") ".nc" = false)
    ∧ readCovarianceMatrix emptyFS "cov.txt" true = (Except.ok none, emptyFS) :=
  ⟨⟨by decide, by decide⟩,
    c2_unrecognized_extension_returns_none emptyFS "cov.txt" true
      (by decide) (by decide)⟩

/-- C8: the legacy-to-chunked migration is idempotent.  On a filesystem
holding only the legacy NetCDF file `cov.nc` with matrix `m`, the first call
returns `m` and leaves the filesystem with the zarr store written and the
NetCDF file removed; a second call with the same path resolves the migrated
store through the extension-swap probing, returns the same matrix `m`,
raises no error, and leaves the on-disk state exactly as it was. -/
theorem c8_migration_idempotent {α : Type} (m : α) :
    readCovarianceMatrix (legacyFS m) "cov.nc" true =
      (Except.ok (some m),
        removeFile (writeZarrStore (legacyFS m) "cov.zarr" m) "cov.nc")
    ∧ readCovarianceMatrix
        (removeFile (writeZarrStore (legacyFS m) "cov.zarr" m) "cov.nc")
        "cov.nc" true =
      (Except.ok (some m),
        removeFile (writeZarrStore (legacyFS m) "cov.zarr" m) "cov.nc") := by
  constructor
  · simp [readCovarianceMatrix, resolveCovariancePath, legacyFS,
      show pyEndsWith "cov.nc" ".nc" = true from by decide,
      show pyEndsWith "cov.nc" ".zarr" = false from by decide,
      show "cov.nc".dropRight 3 ++ ".zarr" = "cov.zarr" from by decide]
  · simp [readCovarianceMatrix, resolveCovariancePath, legacyFS, removeFile,
      writeZarrStore,
      show pyEndsWith "cov.nc" ".nc" = true from by decide,
      show pyEndsWith "cov.zarr" ".zarr" = true from by decide,
      show "cov.nc".dropRight 3 ++ ".zarr" = "cov.zarr" from by decide]

/-- C10: during the migration of the legacy file `cov.nc`, the NetCDF file
is deleted only after the zarr store has been written: when the migration
write fails, the raised error propagates and the filesystem — legacy file
included — is left intact; when it succeeds, the final state is
remove-after-write, and every intermediate filesystem state of the migration
holds at least one on-disk representation of the matrix. -/
theorem c10_migration_preserves_representation {α : Type} (m : α) :
    readCovarianceMatrix (legacyFS m) "cov.nc" false =
      (Except.error CovReadError.writeError, legacyFS m)
    ∧ (legacyFS m).files "cov.nc" = some m
    ∧ (readCovarianceMatrix (legacyFS m) "cov.nc" true).2 =
        removeFile (writeZarrStore (legacyFS m) "cov.zarr" m) "cov.nc"
    ∧ (migrationTrace (legacyFS m) "cov.nc" m).all
        (fun s => (s.files "cov.nc").isSome || (s.dirs "cov.zarr").isSome)
        = true := by
  refine ⟨?_, by simp [legacyFS], ?_, ?_⟩
  · simp [readCovarianceMatrix, resolveCovariancePath, legacyFS,
      show pyEndsWith "cov.nc" ".nc" = true from by decide,
      show pyEndsWith "cov.nc" ".zarr" = false from by decide]
  · simp [readCovarianceMatrix, resolveCovariancePath, legacyFS,
      show pyEndsWith "cov.nc" ".nc" = true from by decide,
      show pyEndsWith "cov.nc" ".zarr" = false from by decide,
      show "cov.nc".dropRight 3 ++ ".zarr" = "cov.zarr" from by decide]
  · simp [migrationTrace, legacyFS, writeZarrStore, removeFile,
      show "cov.nc".dropRight 3 ++ ".zarr" = "cov.zarr" from by decide]

/-- C9: on every call, the writer produces a store with exactly the seven
named fields, in construction order, keyed by the principal-component,
grid-row, grid-column and pixel axes as in the source, and every one of the
seven variables is stored at `float32` whatever the dtype of the input
arrays. -/
theorem c9_writer_seven_float32_fields (inputDtype : String) :
    (writeMcaResults inputDtype).map ZarrVariable.key =
      [SHAPLEY_SINGULAR_VALUE_KEY, PREDICTOR_SINGULAR_VALUE_KEY,
       SHAPLEY_EXPANSION_COEFF_KEY, PREDICTOR_EXPANSION_COEFF_KEY,
       EIGENVALUE_KEY, REGRESSED_SHAPLEY_VALUE_KEY, REGRESSED_PREDICTOR_KEY]
    ∧ (writeMcaResults inputDtype).map ZarrVariable.dims =
      [[PIXEL_DIM, PRINCIPAL_COMPONENT_DIM],
       [PIXEL_DIM, PRINCIPAL_COMPONENT_DIM],
       [PRINCIPAL_COMPONENT_DIM, PRINCIPAL_COMPONENT_DIM],
       [PRINCIPAL_COMPONENT_DIM, PRINCIPAL_COMPONENT_DIM],
       [PRINCIPAL_COMPONENT_DIM],
       [PRINCIPAL_COMPONENT_DIM, GRID_ROW_DIM, GRID_COLUMN_DIM],
       [PRINCIPAL_COMPONENT_DIM, GRID_ROW_DIM, GRID_COLUMN_DIM]]
    ∧ (writeMcaResults inputDtype).map ZarrVariable.storedDtype =
        List.replicate 7 "float32" :=
  ⟨rfl, rfl, rfl⟩

end Ml4tc

namespace Ml4tc

/-- One entry of the masked division: zero exactly when the saliency value is
zero (where `numpy.divide` produces a non-finite value), the plain quotient
otherwise. -/
theorem predictorEntry_eq (a b : ℝ) :
    predictorEntry a b = if b = 0 then 0 else a / b := by
  unfold predictorEntry npDivide
  by_cases hb : b = 0
  · by_cases ha : a = 0 <;> by_cases hpos : 0 < a <;>
      simp [hb, ha, hpos, maskNonFinite]
  · simp [hb, maskNonFinite]

/-- C7: the predictor field equals the gradient field divided element-wise by
the saliency field with every non-finite quotient replaced by exactly 0; in
particular `predictorEntry grad 0 = 0` for every gradient value, zero or
nonzero, with no error raised (the function is total). -/
theorem c7_predictor_nonfinite_masking {E R C : ℕ}
    (gradField salField : Fin E → Fin R → Fin C → ℝ) :
    (∀ e r c, predictorMatrix gradField salField e r c =
        if salField e r c = 0 then 0
        else gradField e r c / salField e r c)
    ∧ ∀ grad : ℝ, predictorEntry grad 0 = 0 := by
  refine ⟨fun e r c => predictorEntry_eq _ _, fun grad => ?_⟩
  rw [predictorEntry_eq]
  simp

/-- C5: for every mode `k` and both fields, the regressed map at `(k, r, c)`
is the transpose of the standardized E-by-P field matrix times the k-th
column of the standardized expansion-coefficient matrix, divided by E and
read back at the row-major pixel of `(r, c)`; and the mode-k result only
depends on the k-th coefficient column (the K regressions are independent:
replacing the whole coefficient matrix by copies of its k-th column changes
nothing at mode k).  The same loop body is run for the Shapley field
(lines 376-383) and the predictor field (lines 390-397). -/
theorem c5_per_mode_regression {E R C : ℕ}
    (fieldMatrix : Matrix (Fin E) (Fin (R * C)) ℝ)
    (coeffMatrix : Matrix (Fin E) (Fin E) ℝ)
    (k : Fin E) (r : Fin R) (c : Fin C) :
    regressedMatrix fieldMatrix coeffMatrix k r c =
      (∑ e, fieldMatrix e (pixelIndex r c) * coeffMatrix e k) / (E : ℝ)
    ∧ regressedMatrix fieldMatrix coeffMatrix k r c =
      regressedMatrix fieldMatrix (Matrix.of fun e _ => coeffMatrix e k)
        k r c := by
  constructor <;>
    simp [regressedMatrix, reshapeToGrid, regressedMatrixFlat,
      Matrix.mul_apply, coefficientColumn, Matrix.transpose_apply]

/-- C4: when every eigenvalue is strictly positive, the diagonal matrix of
square-rooted eigenvalues is invertible with inverse the diagonal matrix of
their reciprocal square roots, so the Shapley singular-vector matrix times
that diagonal recovers covariance times predictor singular vectors, and the
matrix itself is covariance times predictor singular vectors times the
reciprocal square-root diagonal. -/
theorem c4_shapley_singular_vectors {P K : ℕ}
    (covariance : Matrix (Fin P) (Fin P) ℝ)
    (predictorSVM : Matrix (Fin P) (Fin K) ℝ)
    (eigenvalues : Fin K → ℝ) (hpos : ∀ i, 0 < eigenvalues i) :
    shapleySingularValueMatrix covariance predictorSVM eigenvalues *
        eigSqrtDiagonal eigenvalues = covariance * predictorSVM
    ∧ shapleySingularValueMatrix covariance predictorSVM eigenvalues =
        covariance * predictorSVM *
          Matrix.diagonal fun i => (Real.sqrt (eigenvalues i))⁻¹ := by
  have hsqrt : ∀ i, Real.sqrt (eigenvalues i) ≠ 0 := fun i =>
    (Real.sqrt_pos.mpr (hpos i)).ne'
  have hright : eigSqrtDiagonal eigenvalues *
      Matrix.diagonal (fun i => (Real.sqrt (eigenvalues i))⁻¹) = 1 := by
    rw [eigSqrtDiagonal, Matrix.diagonal_mul_diagonal]
    rw [show (fun i => Real.sqrt (eigenvalues i) * (Real.sqrt (eigenvalues i))⁻¹)
        = fun _ : Fin K => (1 : ℝ) from funext fun i => mul_inv_cancel₀ (hsqrt i)]
    exact Matrix.diagonal_one
  have hleft : Matrix.diagonal (fun i => (Real.sqrt (eigenvalues i))⁻¹) *
      eigSqrtDiagonal eigenvalues = 1 := by
    rw [eigSqrtDiagonal, Matrix.diagonal_mul_diagonal]
    rw [show (fun i => (Real.sqrt (eigenvalues i))⁻¹ * Real.sqrt (eigenvalues i))
        = fun _ : Fin K => (1 : ℝ) from funext fun i => inv_mul_cancel₀ (hsqrt i)]
    exact Matrix.diagonal_one
  have hsec : secondMatrix eigenvalues =
      Matrix.diagonal fun i => (Real.sqrt (eigenvalues i))⁻¹ :=
    Matrix.inv_eq_right_inv hright
  constructor
  · rw [shapleySingularValueMatrix, hsec, firstMatrix, Matrix.mul_assoc,
      hleft, Matrix.mul_one]
  · rw [shapleySingularValueMatrix, hsec, firstMatrix]

/-- C4, witnessed at one pixel and one mode with identity covariance,
identity singular vectors and eigenvalue 1. -/
theorem c4_shapley_singular_vectors_witness :
    (∀ i : Fin 1, 0 < (fun _ : Fin 1 => (1 : ℝ)) i)
    ∧ (shapleySingularValueMatrix (1 : Matrix (Fin 1) (Fin 1) ℝ) 1
          (fun _ => 1) * eigSqrtDiagonal (fun _ => 1) = 1 * 1
      ∧ shapleySingularValueMatrix (1 : Matrix (Fin 1) (Fin 1) ℝ) 1
          (fun _ => 1) =
        1 * 1 * Matrix.diagonal fun i =>
          (Real.sqrt ((fun _ : Fin 1 => (1 : ℝ)) i))⁻¹) :=
  ⟨fun _ => one_pos,
    c4_shapley_singular_vectors 1 1 (fun _ => 1) fun _ => one_pos⟩

/-- C6: for every example count E with 1 ≤ E, the PCA is requested with
`n_components = E`, so the number of retained modes equals E, and both
singular-vector matrices produced by the pipeline have exactly E columns. -/
theorem c6_mode_count_equals_examples (E P : ℕ) (hE : 1 ≤ E)
    (pca : PCAResult (nComponents E) P)
    (covariance : Matrix (Fin P) (Fin P) ℝ) :
    nComponents E = E
    ∧ matCols (predictorSingularValueMatrix pca) = E
    ∧ matCols (shapleySingularValueMatrix covariance
        (predictorSingularValueMatrix pca) (eigenvaluesOfPCA pca)) = E :=
  ⟨rfl, rfl, rfl⟩

/-- C6, witnessed at E = 1, P = 1. -/
theorem c6_mode_count_equals_examples_witness :
    (1 ≤ 1)
    ∧ (nComponents 1 = 1
      ∧ matCols (predictorSingularValueMatrix pcaExample) = 1
      ∧ matCols (shapleySingularValueMatrix (1 : Matrix (Fin 1) (Fin 1) ℝ)
          (predictorSingularValueMatrix pcaExample)
          (eigenvaluesOfPCA pcaExample)) = 1) :=
  ⟨le_refl 1, c6_mode_count_equals_examples 1 1 (le_refl 1) pcaExample 1⟩

end Ml4tc

namespace Ml4tc

/-- Rounding a real to the nearest integer, characterized by bounds on
`x + 1/2`. -/
theorem round_eq_of_bounds (x : ℝ) (n : ℤ) (h1 : (n : ℝ) ≤ x + 1 / 2)
    (h2 : x + 1 / 2 < (n : ℝ) + 1) : round x = n := by
  rw [round_eq]
  exact Int.floor_eq_iff.mpr ⟨h1, by exact_mod_cast h2⟩

/-- With 400 original pixels and 100 covariance pixels the float factor is
exactly 2. -/
theorem factorFloat_400_100 : spatialCoarseningFactorFloat 400 100 = 2 := by
  rw [spatialCoarseningFactorFloat,
    show ((400 : ℕ) : ℝ) / ((100 : ℕ) : ℝ) = 2 ^ 2 from by norm_num,
    Real.sqrt_sq (by norm_num : (0 : ℝ) ≤ 2)]

/-- Bounds on the float factor for 401 original pixels and 100 covariance
pixels: the square root of 4.01 lies between 2 and 2.0025. -/
theorem factorFloat_401_100_bounds :
    2 ≤ spatialCoarseningFactorFloat 401 100
    ∧ spatialCoarseningFactorFloat 401 100 ≤ 2.0025 := by
  have hsq : spatialCoarseningFactorFloat 401 100 ^ 2 = 401 / 100 := by
    rw [spatialCoarseningFactorFloat, Real.sq_sqrt (by norm_num)]
    norm_num
  have hnn : 0 ≤ spatialCoarseningFactorFloat 401 100 := Real.sqrt_nonneg _
  constructor
  · nlinarith [hsq, hnn]
  · nlinarith [hsq, hnn, sq_nonneg (spatialCoarseningFactorFloat 401 100 - 2)]

/-- Bounds on the float factor for 200 original pixels and 100 covariance
pixels: the square root of 2 lies between 1.41 and 1.42. -/
theorem factorFloat_200_100_bounds :
    1.41 ≤ spatialCoarseningFactorFloat 200 100
    ∧ spatialCoarseningFactorFloat 200 100 ≤ 1.42 := by
  have hsq : spatialCoarseningFactorFloat 200 100 ^ 2 = 2 := by
    rw [spatialCoarseningFactorFloat, Real.sq_sqrt (by norm_num)]
    norm_num
  have hnn : 0 ≤ spatialCoarseningFactorFloat 200 100 := Real.sqrt_nonneg _
  constructor
  · nlinarith [hsq, hnn]
  · nlinarith [hsq, hnn, sq_nonneg (spatialCoarseningFactorFloat 200 100 - 1.42)]

/-- With 400 vs 100 pixels the inferred integer factor is 2. -/
theorem factor_400_100 : spatialCoarseningFactor 400 100 = 2 := by
  rw [spatialCoarseningFactor, factorFloat_400_100]
  exact round_eq_of_bounds 2 2 (by norm_num) (by norm_num)

/-- With 400 vs 100 pixels the consistency check passes. -/
theorem check_400_100 : coarseningCheckPasses 400 100 := by
  rw [coarseningCheckPasses, factor_400_100, factorFloat_400_100]
  norm_num

/-- With 401 vs 100 pixels the inferred integer factor is also 2 (the float
factor is about 2.0025). -/
theorem factor_401_100 : spatialCoarseningFactor 401 100 = 2 := by
  obtain ⟨h1, h2⟩ := factorFloat_401_100_bounds
  rw [spatialCoarseningFactor]
  exact round_eq_of_bounds _ 2 (by push_cast; linarith) (by push_cast; linarith)

/-- With 401 vs 100 pixels the consistency check passes: |2 - sqrt(4.01)| is
about 0.0025, well inside 1e-8 + 0.01 * sqrt(4.01). -/
theorem check_401_100 : coarseningCheckPasses 401 100 := by
  obtain ⟨h1, h2⟩ := factorFloat_401_100_bounds
  rw [coarseningCheckPasses, factor_401_100]
  push_cast
  rw [abs_of_nonpos (by linarith), abs_of_nonneg (by linarith)]
  linarith

/-- With 200 vs 100 pixels the inferred integer factor is 1 (the float
factor is about 1.414). -/
theorem factor_200_100 : spatialCoarseningFactor 200 100 = 1 := by
  obtain ⟨h1, h2⟩ := factorFloat_200_100_bounds
  rw [spatialCoarseningFactor]
  exact round_eq_of_bounds _ 1 (by push_cast; linarith) (by push_cast; linarith)

/-- With 200 vs 100 pixels the consistency check fails: |1 - sqrt 2| is about
0.414, far outside 1e-8 + 0.01 * sqrt 2. -/
theorem check_200_100_fails : ¬ coarseningCheckPasses 200 100 := by
  obtain ⟨h1, h2⟩ := factorFloat_200_100_bounds
  rw [coarseningCheckPasses, factor_200_100]
  push_cast
  rw [abs_of_nonpos (by linarith), abs_of_nonneg (by linarith)]
  intro h
  linarith

/-- C1: counterexample.  With an original pixel count of 401 and a
covariance pixel count of 100, the inferred factor is 2 and the
`numpy.isclose` consistency check passes — no error is raised, contrary to
the claim: sqrt(4.01) is about 2.0025, within the 1% relative tolerance
of 2. -/
theorem c1_coarsening_counterexample :
    spatialCoarseningFactor 401 100 = 2 ∧ coarseningCheckPasses 401 100 :=
  ⟨factor_401_100, check_401_100⟩

/-- C1 (amended): with 400 vs 100 pixels the factor resolves to exactly 2
and the check passes; with 401 vs 100 pixels the factor also resolves to 2
and the check also passes (sqrt(4.01) is within the 1% relative tolerance of
its nearest integer), so no error is raised; the validation does abort when
the nearest integer is outside the tolerance, for example at 200 vs 100
pixels, where the factor rounds to 1 but sqrt 2 is not within tolerance. -/
theorem c1_coarsening_amended :
    (spatialCoarseningFactor 400 100 = 2 ∧ coarseningCheckPasses 400 100)
    ∧ (spatialCoarseningFactor 401 100 = 2 ∧ coarseningCheckPasses 401 100)
    ∧ (spatialCoarseningFactor 200 100 = 1
        ∧ ¬ coarseningCheckPasses 200 100) :=
  ⟨⟨factor_400_100, check_400_100⟩, ⟨factor_401_100, check_401_100⟩,
    factor_200_100, check_200_100_fails⟩

end Ml4tc

namespace Ml4tc

/-- The global mean is invariant under reindexing the array. -/
theorem npMean_comp_equiv {ι κ : Type*} [Fintype ι] [Fintype κ]
    (x : ι → ℝ) (eqv : κ ≃ ι) : npMean (x ∘ eqv) = npMean x := by
  rw [npMean, npMean, Fintype.card_congr eqv]
  congr 1
  exact Equiv.sum_comp eqv x

/-- The global sample variance is invariant under reindexing the array. -/
theorem npSampleVariance_comp_equiv {ι κ : Type*} [Fintype ι] [Fintype κ]
    (x : ι → ℝ) (eqv : κ ≃ ι) :
    npSampleVariance (x ∘ eqv) = npSampleVariance x := by
  rw [npSampleVariance, npSampleVariance, Fintype.card_congr eqv,
    npMean_comp_equiv x eqv]
  congr 1
  exact Equiv.sum_comp eqv fun i => (x i - npMean x) ^ 2

/-- Global standardization commutes with reindexing: flattening the array
first and standardizing after gives the same entries as standardizing first
and flattening after. -/
theorem standardizeGlobal_comp_equiv {ι κ : Type*} [Fintype ι] [Fintype κ]
    (x : ι → ℝ) (eqv : κ ≃ ι) :
    standardizeGlobal (x ∘ eqv) = standardizeGlobal x ∘ eqv := by
  funext k
  simp only [standardizeGlobal, Function.comp_apply, npSampleStdev]
  rw [npMean_comp_equiv x eqv, npSampleVariance_comp_equiv x eqv]

/-- C3: the flattened E-by-P matrix is standardized globally.  Every entry
has the same single scalar pair subtracted and divided — the global mean and
the global ddof-1 sample standard deviation over all E*P entries — and those
scalars really are mean and sample standard deviation: the standardized
matrix has global mean 0 and global sample variance 1.  Any reindexing of
the entries (in particular the flattening between the E-by-R-by-C and E-by-P
shapes) commutes with the standardization, entry for entry. -/
theorem c3_global_standardization {E P : ℕ} (x : Fin E × Fin P → ℝ)
    (hEP : 1 < E * P) (hvar : 0 < npSampleVariance x) :
    (∀ i, standardizeGlobal x i = (x i - npMean x) / npSampleStdev x)
    ∧ npMean (standardizeGlobal x) = 0
    ∧ npSampleVariance (standardizeGlobal x) = 1
    ∧ ∀ (κ : Type) (_ : Fintype κ) (eqv : κ ≃ Fin E × Fin P),
        standardizeGlobal (x ∘ eqv) = standardizeGlobal x ∘ eqv := by
  have hcard : Fintype.card (Fin E × Fin P) = E * P := by simp
  have hN0 : ((Fintype.card (Fin E × Fin P) : ℝ)) ≠ 0 := by
    rw [hcard]
    exact_mod_cast (Nat.lt_of_lt_of_le Nat.zero_lt_one hEP.le).ne'
  have hsum : (Fintype.card (Fin E × Fin P) : ℝ) * npMean x = ∑ i, x i := by
    rw [npMean, mul_comm, div_mul_cancel₀ _ hN0]
  have hcenter : ∑ i, (x i - npMean x) = 0 := by
    rw [Finset.sum_sub_distrib, Finset.sum_const, Finset.card_univ,
      nsmul_eq_mul, hsum, sub_self]
  have hmean0 : npMean (standardizeGlobal x) = 0 := by
    rw [npMean]
    have hz : ∑ i, standardizeGlobal x i = 0 := by
      simp only [standardizeGlobal]
      rw [← Finset.sum_div, hcenter, zero_div]
    rw [hz, zero_div]
  have hs2 : npSampleStdev x ^ 2 = npSampleVariance x :=
    Real.sq_sqrt hvar.le
  have hvar1 : npSampleVariance (standardizeGlobal x) = 1 := by
    rw [npSampleVariance, hmean0]
    have hterm : ∀ i : Fin E × Fin P,
        (standardizeGlobal x i - 0) ^ 2 =
          (x i - npMean x) ^ 2 / npSampleStdev x ^ 2 := by
      intro i
      simp only [standardizeGlobal]
      rw [sub_zero, div_pow]
    rw [Finset.sum_congr rfl fun i _ => hterm i, ← Finset.sum_div, hs2]
    have hrw : (∑ i, (x i - npMean x) ^ 2) / npSampleVariance x /
        ((Fintype.card (Fin E × Fin P) : ℝ) - 1) =
          (∑ i, (x i - npMean x) ^ 2) /
            ((Fintype.card (Fin E × Fin P) : ℝ) - 1) / npSampleVariance x := by
      ring
    rw [hrw]
    show npSampleVariance x / npSampleVariance x = 1
    exact div_self hvar.ne'
  exact ⟨fun i => rfl, hmean0, hvar1,
    fun κ _ eqv => standardizeGlobal_comp_equiv x eqv⟩

/-- C3, witnessed at the concrete 2-by-1 array with entries 0 and 2. -/
theorem c3_global_standardization_witness :
    ((1 < 2 * 1) ∧ 0 < npSampleVariance standardizeExample)
    ∧ ((∀ i, standardizeGlobal standardizeExample i =
          (standardizeExample i - npMean standardizeExample) /
            npSampleStdev standardizeExample)
      ∧ npMean (standardizeGlobal standardizeExample) = 0
      ∧ npSampleVariance (standardizeGlobal standardizeExample) = 1
      ∧ ∀ (κ : Type) (_ : Fintype κ) (eqv : κ ≃ Fin 2 × Fin 1),
          standardizeGlobal (standardizeExample ∘ eqv) =
            standardizeGlobal standardizeExample ∘ eqv) := by
  have hvar : 0 < npSampleVariance standardizeExample := by
    have hmean : npMean standardizeExample = 1 := by
      rw [npMean]
      rw [show ∑ i, standardizeExample i = 2 from by
        rw [Fintype.sum_prod_type]
        simp [standardizeExample, Fin.sum_univ_succ]]
      simp
    rw [npSampleVariance, hmean]
    rw [show ∑ i, (standardizeExample i - 1) ^ 2 = 2 from by
      rw [Fintype.sum_prod_type]
      simp [standardizeExample, Fin.sum_univ_succ]
      norm_num]
    norm_num
  exact ⟨⟨by norm_num, hvar⟩,
    c3_global_standardization standardizeExample (by norm_num) hvar⟩

end Ml4tc
